import Mathlib

/-!
# Purpose Activation Toolkit — verification of the API-client core

Shallow embedding of the client-side API layer of the Purpose Activation
Toolkit (`frontend/script.js`): token storage (`storeTokens`, `clearTokens`,
`getAccessToken`, `getRefreshToken`), the token-refresh helper
(`refreshAccessToken`) and the authenticated fetch wrapper (`apiFetch`),
together with a model of the backend assessment scoring service taken from
the specification (the backend source is not part of this tree).

The network is modelled as an oracle `env : Nat → Response` assigning to the
`n`-th outbound fetch of a run its response; a run carries a `RunState`
holding the token store (localStorage) and the ordered log of issued calls.
JavaScript truthiness of strings (empty string is falsy) is modelled
explicitly wherever the source relies on it.
-/

namespace PAT

/-- JSON-ish value as the client observes it: an object with string-valued
fields (the only field values the client ever reads are strings), a plain
string (also the result of `response.text()`), or a falsy `null`. -/
inductive JVal where
  | obj (fields : List (String × String)) : JVal
  | str (s : String) : JVal
  | nullv : JVal
deriving DecidableEq, Repr

/-- JavaScript truthiness of a `JVal`: objects are truthy, strings are
truthy when non-empty, `null` is falsy. -/
def JVal.truthy : JVal → Bool
  | .obj _ => true
  | .str s => s ≠ ""
  | .nullv => false

/-- Property access `v.k` on a JSON value: a string field of an object when
present, otherwise `undefined` (`none`). -/
def JVal.field : JVal → String → Option String
  | .obj fields, k => fields.lookup k
  | _, _ => none

/-- `v && v.k` followed by a truthiness test: the field's value when the
value is truthy, the field is present and its value is truthy (non-empty). -/
def JVal.truthyField (v : JVal) (k : String) : Option String :=
  if v.truthy then
    match v.field k with
    | some s => if s ≠ "" then some s else none
    | none => none
  else none

/-- Truthiness of a nullable string (`localStorage.getItem` result):
present and non-empty. -/
def optTruthy : Option String → Bool
  | some s => s ≠ ""
  | none => false

/-- The two localStorage slots `access_token` and `refresh_token`;
`none` models an absent key. -/
structure Store where
  access : Option String
  refresh : Option String
deriving DecidableEq, Repr

/-- `getAccessToken` (script.js line 44). -/
def getAccessToken (st : Store) : Option String := st.access

/-- `getRefreshToken` (script.js line 45). -/
def getRefreshToken (st : Store) : Option String := st.refresh

/-- `storeTokens(payload)` (script.js lines 27–37): if the payload is truthy,
store each of `access_token` / `refresh_token` that is present and truthy,
leaving the other slot untouched. -/
def storeTokens (payload : JVal) (st : Store) : Store :=
  if ¬ payload.truthy then st
  else
    let st := match payload.truthyField "access_token" with
      | some a => { st with access := some a }
      | none => st
    match payload.truthyField "refresh_token" with
      | some r => { st with refresh := some r }
      | none => st

/-- `clearTokens` (script.js lines 39–42). -/
def clearTokens (_ : Store) : Store := ⟨none, none⟩

/-- Substring test on character lists, auxiliary to `strIncludes`. -/
def listContains (hay needle : List Char) : Bool :=
  match hay with
  | [] => needle.isEmpty
  | _ :: t => needle.isPrefixOf hay || listContains t needle

/-- JavaScript `String.prototype.includes`. -/
def strIncludes (s sub : String) : Bool := listContains s.toList sub.toList

/-- One HTTP response as the client observes it: numeric status, the
`content-type` header (`none` when absent), the value `response.json()`
would yield and the text `response.text()` would yield. -/
structure Response where
  status : Nat
  contentType : Option String
  jsonBody : JVal
  textBody : String
deriving DecidableEq, Repr

/-- `response.ok`: status in the inclusive range 200–299. -/
def okStatus (s : Nat) : Bool := 200 ≤ s && s ≤ 299

/-- `contentType.includes('application/json')` with the `|| ''` default
(script.js lines 99–100). -/
def isJsonContentType (ct : Option String) : Bool :=
  strIncludes (ct.getD "") "application/json"

/-- The request body: a multipart form or a plain (JSON-serialised) string. -/
inductive BodyV where
  | formData : BodyV
  | str (s : String) : BodyV
deriving DecidableEq, Repr

/-- The header fields the client reads or writes. -/
structure HeadersM where
  contentType : Option String
  authorization : Option String
deriving DecidableEq, Repr

/-- The `options` argument of `apiFetch`: caller-supplied headers and an
optional body (`none` models both `undefined` and `null`). -/
structure Options where
  headers : HeadersM
  body : Option BodyV
deriving DecidableEq, Repr

/-- An outbound request as issued on the wire: URL and final headers. -/
structure Request where
  url : String
  headers : HeadersM
deriving DecidableEq, Repr

/-- One entry of the call log: a request issued by `apiFetch` itself, or the
refresh call `fetch('/api/token/refresh', …)` issued by
`refreshAccessToken` carrying the given refresh token. -/
inductive Call where
  | api (req : Request) : Call
  | refresh (token : String) : Call
deriving DecidableEq, Repr

/-- Mutable run state: the token store and the ordered log of fetches. -/
structure RunState where
  store : Store
  calls : List Call
deriving DecidableEq, Repr

/-- The network oracle: the response to the `n`-th fetch of the run. -/
def Env : Type := Nat → Response

/-- Issue one fetch: consume the next response from the oracle and append
the call to the log. -/
def fetchStep (env : Env) (s : RunState) (c : Call) : Response × RunState :=
  (env s.calls.length, { s with calls := s.calls ++ [c] })

/-- `refreshAccessToken` (script.js lines 47–68): with no (truthy) stored
refresh token, fail without any network call; otherwise POST to
`/api/token/refresh` with the refresh token as bearer credential; on a
non-ok response clear both tokens and fail; on an ok response store the
returned tokens and succeed. -/
def refreshAccessToken (env : Env) (s : RunState) : Bool × RunState :=
  let refreshToken := getRefreshToken s.store
  if ¬ optTruthy refreshToken then (false, s)
  else
    let rt := refreshToken.getD ""
    let (res, s1) := fetchStep env s (.refresh rt)
    if ¬ okStatus res.status then
      (false, { s1 with store := clearTokens s1.store })
    else
      (true, { s1 with store := storeTokens res.jsonBody s1.store })

/-- Result of an `apiFetch` run: the value returned on success (`JVal.nullv`
for a 204 no-content response), or the message of the thrown `Error`. -/
inductive ApiResult where
  | ok (data : JVal) : ApiResult
  | err (message : String) : ApiResult
deriving DecidableEq, Repr

/-- Whitespace as JavaScript's `trim` treats it (the characters relevant
to HTTP bodies). -/
def isWs (c : Char) : Bool := c = ' ' || c = '\t' || c = '\n' || c = '\r'

/-- JavaScript `String.prototype.trim`: strip leading and trailing
whitespace. -/
def strTrim (s : String) : String :=
  String.mk (((s.toList.dropWhile isWs).reverse.dropWhile isWs).reverse)

/-- The error-message fallback chain of script.js lines 104–107:
`(data && data.detail) || (data && data.message) ||
(typeof data === 'string' && data.trim() ? data : generic)`. -/
def errorMessage (data : JVal) (status : Nat) : String :=
  match data.truthyField "detail" with
  | some d => d
  | none =>
    match data.truthyField "message" with
    | some m => m
    | none =>
      match data with
      | .str s => if strTrim s ≠ "" then s else "Request failed with status " ++ toString status
      | _ => "Request failed with status " ++ toString status

/-- `response.json()` or `response.text()` according to the declared
content type (script.js lines 99–101). -/
def parseBody (res : Response) : JVal :=
  if isJsonContentType res.contentType then res.jsonBody else .str res.textBody

/-- Header preparation of script.js lines 72–81: default the content type
to JSON for non-`FormData` bodies when none is set, then attach the stored
access token as a bearer credential when `auth` is set and a token is
present (and truthy). -/
def buildHeaders (options : Options) (auth : Bool) (st : Store) : HeadersM :=
  let headers := options.headers
  let hasBody := options.body.isSome
  let headers :=
    if hasBody && options.body != some .formData && headers.contentType.isNone then
      { headers with contentType := some "application/json" }
    else headers
  let accessToken := getAccessToken st
  if auth && optTruthy accessToken then
    { headers with authorization := some ("Bearer " ++ accessToken.getD "") }
  else headers

/-- Response handling of script.js lines 95–111: a 204 returns `null`;
otherwise the body is parsed per content type, a non-ok status throws the
fallback-chain message, and an ok status returns the parsed body. -/
def finishResponse (res : Response) : ApiResult :=
  if res.status = 204 then .ok .nullv
  else
    let data := parseBody res
    if ¬ okStatus res.status then .err (errorMessage data res.status)
    else .ok data

/-- One outbound attempt of `apiFetch` (script.js lines 72–86): build the
headers from the options, the `auth` flag and the current store, then issue
the fetch. -/
def attempt (url : String) (options : Options) (auth : Bool) (env : Env)
    (s : RunState) : Response × RunState :=
  fetchStep env s (.api ⟨url, buildHeaders options auth s.store⟩)

/-- `apiFetch(url, options, {auth, retryOnUnauthorized})`
(script.js lines 70–112): build headers, issue the request; on a 401 with
`auth` and `retryOnUnauthorized` both set, attempt one token refresh and,
when it succeeds, re-issue the whole request once with
`retryOnUnauthorized` disabled; in every other case fall through to
ordinary response handling of the response just received.

The source's recursive call passes `retryOnUnauthorized: false`, so that
call can never take its own 401-refresh branch and is exactly one further
`attempt` followed by response handling; the recursion is unrolled here
accordingly, keeping the definition structurally computable. -/
def apiFetch (url : String) (options : Options) (auth retryOnUnauthorized : Bool)
    (env : Env) (s : RunState) : ApiResult × RunState :=
  let (response, s1) := attempt url options auth env s
  if response.status = 401 && auth && retryOnUnauthorized then
    let (refreshed, s2) := refreshAccessToken env s1
    if refreshed then
      let (response2, s3) := attempt url options auth env s2
      (finishResponse response2, s3)
    else (finishResponse response, s2)
  else (finishResponse response, s1)

/-- Is a logged call the token-refresh call? -/
def isRefreshCall : Call → Bool
  | .refresh _ => true
  | .api _ => false

/-- Number of token-refresh calls in a call log. -/
def refreshCalls (cs : List Call) : Nat := cs.countP isRefreshCall

/-- Number of ordinary API calls in a call log. -/
def apiCalls (cs : List Call) : Nat := cs.countP (fun c => !isRefreshCall c)

/-- A fresh run state over a given token store: empty call log. -/
@[reducible] def initState (store : Store) : RunState := ⟨store, []⟩

/-- Build a network oracle from a finite list of responses; fetches beyond
the list receive a bland 200 response. -/
def envOf (rs : List Response) : Env :=
  fun n => rs.getD n ⟨200, none, .nullv, ""⟩

/-! ## Assessment scoring service

Modelled from the spec: the backend scoring endpoint (`backend/app.py`,
`score(definition, responses)`) is not part of this source tree; the
definitions below follow the specification's §3–§4.1 word for word. -/

/-- Response scale of an assessment: integer minimum and maximum. -/
structure Scale where
  min : Int
  max : Int
deriving DecidableEq, Repr

/-- An interpretation band: inclusive score range with its interpretation
and guidance texts. -/
structure Band where
  lo : Int
  hi : Int
  interpretation : String
  guidance : String
deriving DecidableEq, Repr

/-- Modelled from the spec: an assessment definition — ordered question
prompts, a scale, and ordered interpretation bands. -/
structure AssessmentDefinition where
  questions : List String
  scale : Scale
  bands : List Band
deriving DecidableEq, Repr

/-- Result of scoring a valid submission. -/
structure ScoreResult where
  total : Int
  maxScore : Int
  average : ℚ
  interpretation : String
  guidance : String
deriving DecidableEq, Repr

/-- Error taxonomy of the scoring service (spec §7). -/
inductive ScoreError where
  | validation : ScoreError
  | configuration : ScoreError
deriving DecidableEq, Repr

/-- Band selection (spec §4.1): first band in definition order whose
inclusive range contains the total. -/
def selectBand (bands : List Band) (total : Int) : Option Band :=
  bands.find? (fun b => b.lo ≤ total && total ≤ b.hi)

/-- Modelled from the spec: `score(definition, responses)` (spec §4.1) —
reject a response count differing from the question count or any response
outside `[scale.min, scale.max]`; total is the sum of responses, maximum
score is question count times `scale.max`, average is total over question
count as an exact rational, and interpretation/guidance come from the
first matching band, failing with a configuration error when none does. -/
def score (d : AssessmentDefinition) (responses : List Int) :
    Except ScoreError ScoreResult :=
  if responses.length ≠ d.questions.length then .error .validation
  else if responses.any (fun r => r < d.scale.min || d.scale.max < r) then
    .error .validation
  else
    let total := responses.sum
    match selectBand d.bands total with
    | none => .error .configuration
    | some b =>
      .ok ⟨total, (d.questions.length : Int) * d.scale.max,
           (total : ℚ) / (d.questions.length : ℚ), b.interpretation, b.guidance⟩

/-! ## Path characterization lemmas

Four lemmas covering the mutually exclusive execution paths of `apiFetch`:
no refresh path taken; 401 with no stored refresh token; 401 with a failing
refresh; 401 with a succeeding refresh followed by the single retry. -/

lemma decide_and3_false {c : Nat} {auth retry : Bool}
    (h : ¬(c = 401 ∧ auth = true ∧ retry = true)) :
    (decide (c = 401) && auth && retry) = false := by
  by_cases hc : c = 401 <;> cases auth <;> cases retry <;> simp_all

lemma refresh_noToken (env : Env) (s : RunState)
    (h : optTruthy s.store.refresh = false) :
    refreshAccessToken env s = (false, s) := by
  simp [refreshAccessToken, getRefreshToken, h]

lemma refresh_fail (env : Env) (s : RunState)
    (h : optTruthy s.store.refresh = true)
    (h2 : okStatus (env s.calls.length).status = false) :
    refreshAccessToken env s =
      (false, ⟨⟨none, none⟩, s.calls ++ [.refresh (s.store.refresh.getD "")]⟩) := by
  simp [refreshAccessToken, getRefreshToken, fetchStep, clearTokens, h, h2]

lemma refresh_ok (env : Env) (s : RunState)
    (h : optTruthy s.store.refresh = true)
    (h2 : okStatus (env s.calls.length).status = true) :
    refreshAccessToken env s =
      (true, ⟨storeTokens (env s.calls.length).jsonBody s.store,
              s.calls ++ [.refresh (s.store.refresh.getD "")]⟩) := by
  simp [refreshAccessToken, getRefreshToken, fetchStep, h, h2]

lemma apiFetch_no401 (url : String) (options : Options) (auth retry : Bool)
    (env : Env) (s : RunState)
    (h : ¬((env s.calls.length).status = 401 ∧ auth = true ∧ retry = true)) :
    apiFetch url options auth retry env s =
      (finishResponse (env s.calls.length),
       ⟨s.store, s.calls ++ [.api ⟨url, buildHeaders options auth s.store⟩]⟩) := by
  have hb := decide_and3_false h
  simp [apiFetch, attempt, fetchStep, hb]

lemma apiFetch_401_noToken (url : String) (options : Options)
    (env : Env) (s : RunState)
    (h401 : (env s.calls.length).status = 401)
    (hrt : optTruthy s.store.refresh = false) :
    apiFetch url options true true env s =
      (finishResponse (env s.calls.length),
       ⟨s.store, s.calls ++ [.api ⟨url, buildHeaders options true s.store⟩]⟩) := by
  have hr := refresh_noToken env
    ⟨s.store, s.calls ++ [.api ⟨url, buildHeaders options true s.store⟩]⟩ hrt
  simp [apiFetch, attempt, fetchStep, h401, hr]

lemma apiFetch_401_refreshFail (url : String) (options : Options)
    (env : Env) (s : RunState)
    (h401 : (env s.calls.length).status = 401)
    (hrt : optTruthy s.store.refresh = true)
    (hfail : okStatus (env (s.calls.length + 1)).status = false) :
    apiFetch url options true true env s =
      (finishResponse (env s.calls.length),
       ⟨⟨none, none⟩,
        s.calls ++ [.api ⟨url, buildHeaders options true s.store⟩,
                    .refresh (s.store.refresh.getD "")]⟩) := by
  have hr := refresh_fail env ⟨s.store, s.calls ++ [.api ⟨url, buildHeaders options true s.store⟩]⟩
    hrt (by simpa using hfail)
  simp [apiFetch, attempt, fetchStep, h401, hr]

lemma apiFetch_401_refreshOk (url : String) (options : Options)
    (env : Env) (s : RunState)
    (h401 : (env s.calls.length).status = 401)
    (hrt : optTruthy s.store.refresh = true)
    (hok : okStatus (env (s.calls.length + 1)).status = true) :
    apiFetch url options true true env s =
      (finishResponse (env (s.calls.length + 2)),
       ⟨storeTokens (env (s.calls.length + 1)).jsonBody s.store,
        s.calls ++ [.api ⟨url, buildHeaders options true s.store⟩,
                    .refresh (s.store.refresh.getD ""),
                    .api ⟨url, buildHeaders options true
                            (storeTokens (env (s.calls.length + 1)).jsonBody s.store)⟩]⟩) := by
  have hr := refresh_ok env ⟨s.store, s.calls ++ [.api ⟨url, buildHeaders options true s.store⟩]⟩
    hrt (by simpa using hok)
  simp [apiFetch, attempt, fetchStep, h401, hr]

lemma buildHeaders_contentType (options : Options) (auth : Bool) (st : Store)
    (b : BodyV) (hb : options.body = some b)
    (hct : options.headers.contentType = none) :
    (buildHeaders options auth st).contentType
      = if b = .formData then none else some "application/json" := by
  unfold buildHeaders
  cases b <;> simp [hb, hct] <;> split <;> simp [hct]

lemma buildHeaders_auth_some (options : Options) (st : Store) (a : String)
    (h : st.access = some a) (hne : a ≠ "") :
    (buildHeaders options true st).authorization = some ("Bearer " ++ a) := by
  simp [buildHeaders, getAccessToken, optTruthy, h, hne]

lemma buildHeaders_auth_none (options : Options) (auth : Bool) (st : Store)
    (h : st.access = none) :
    (buildHeaders options auth st).authorization
      = options.headers.authorization := by
  unfold buildHeaders
  simp [getAccessToken, optTruthy, h]
  split <;> rfl

lemma apiFetch_first_call (url : String) (options : Options) (auth retry : Bool)
    (env : Env) (store : Store) :
    ∃ rest, (apiFetch url options auth retry env (initState store)).2.calls
      = .api ⟨url, buildHeaders options auth store⟩ :: rest := by
  by_cases hp : (env 0).status = 401 ∧ auth = true ∧ retry = true
  · obtain ⟨h401, ha, hr⟩ := hp
    subst ha; subst hr
    by_cases hrt : optTruthy store.refresh
    · by_cases hok : okStatus (env 1).status
      · refine ⟨[.refresh (store.refresh.getD ""),
          .api ⟨url, buildHeaders options true
            (storeTokens (env 1).jsonBody store)⟩], ?_⟩
        rw [apiFetch_401_refreshOk url options env (initState store)
          (by simpa [initState] using h401) hrt (by simpa [initState] using hok)]
        rfl
      · refine ⟨[.refresh (store.refresh.getD "")], ?_⟩
        rw [apiFetch_401_refreshFail url options env (initState store)
          (by simpa [initState] using h401) hrt
          (by simpa [initState] using Bool.eq_false_iff.mpr hok)]
        rfl
    · refine ⟨[], ?_⟩
      rw [apiFetch_401_noToken url options env (initState store)
        (by simpa [initState] using h401) (Bool.eq_false_iff.mpr hrt)]
      rfl
  · refine ⟨[], ?_⟩
    rw [apiFetch_no401 url options auth retry env (initState store)
      (by simpa [initState] using hp)]
    rfl

/-- The error-message selection rule as the specification's claim words
it, for comparison with the source's `errorMessage`: the body's `detail`
field if present, else its `message` field if present, else the raw body
text if it is a non-empty string, else a generic message naming the
status code. -/
def claimedErrorMessage (data : JVal) (status : Nat) : String :=
  match data.field "detail" with
  | some d => d
  | none =>
    match data.field "message" with
    | some m => m
    | none =>
      match data with
      | .str s =>
        if s ≠ "" then s else "Request failed with status " ++ toString status
      | _ => "Request failed with status " ++ toString status

lemma storeTokens_access_only (st : Store) (fields : List (String × String))
    (a : String) (ha : (JVal.obj fields).truthyField "access_token" = some a)
    (hr : fields.lookup "refresh_token" = none) :
    storeTokens (.obj fields) st = ⟨some a, st.refresh⟩ := by
  have h2 : (JVal.obj fields).truthyField "refresh_token" = none := by
    simp [JVal.truthyField, JVal.truthy, JVal.field, hr]
  simp [storeTokens, JVal.truthy, ha, h2]

/-! ## Claim theorems -/

/-- C5: a call with a non-null body and no explicit `Content-Type` header
is sent with `Content-Type: application/json`, except that a `FormData`
body gets no added content type. -/
theorem apiFetch_json_content_type_default (url : String) (options : Options)
    (auth retry : Bool) (env : Env) (store : Store) (b : BodyV)
    (hb : options.body = some b) (hct : options.headers.contentType = none) :
    ∃ req rest,
      (apiFetch url options auth retry env (initState store)).2.calls
        = .api req :: rest ∧
      req.url = url ∧
      req.headers.contentType
        = (if b = .formData then none else some "application/json") := by
  obtain ⟨rest, hcalls⟩ := apiFetch_first_call url options auth retry env store
  exact ⟨⟨url, buildHeaders options auth store⟩, rest, hcalls, rfl,
    buildHeaders_contentType options auth store b hb hct⟩

/-- C5 witness: a concrete string body with no explicit content type is
sent as `application/json`. -/
theorem apiFetch_json_content_type_default_witness :
    ∃ req rest,
      (apiFetch "/api/intent" ⟨⟨none, none⟩, some (.str "{}")⟩ false true
        (envOf []) (initState ⟨none, none⟩)).2.calls = .api req :: rest ∧
      req.url = "/api/intent" ∧
      req.headers.contentType
        = (if BodyV.str "{}" = .formData then none
           else some "application/json") :=
  apiFetch_json_content_type_default "/api/intent" ⟨⟨none, none⟩, some (.str "{}")⟩
    false true (envOf []) ⟨none, none⟩ (.str "{}") rfl rfl

/-- C6: with `auth` set, a stored (truthy) access token is attached as a
bearer credential; with no stored token the request is still issued,
carrying no `Authorization` header, and no client-side error arises. -/
theorem apiFetch_bearer_attachment (url : String) (options : Options)
    (retry : Bool) (env : Env) (store : Store) :
    (∀ a, store.access = some a → a ≠ "" →
      ∃ req rest,
        (apiFetch url options true retry env (initState store)).2.calls
          = .api req :: rest ∧
        req.url = url ∧ req.headers.authorization = some ("Bearer " ++ a))
    ∧ (store.access = none → options.headers.authorization = none →
      ∃ req rest,
        (apiFetch url options true retry env (initState store)).2.calls
          = .api req :: rest ∧
        req.url = url ∧ req.headers.authorization = none) := by
  constructor
  · intro a ha hne
    obtain ⟨rest, hcalls⟩ := apiFetch_first_call url options true retry env store
    exact ⟨⟨url, buildHeaders options true store⟩, rest, hcalls, rfl,
      buildHeaders_auth_some options store a ha hne⟩
  · intro ha hauth
    obtain ⟨rest, hcalls⟩ := apiFetch_first_call url options true retry env store
    refine ⟨⟨url, buildHeaders options true store⟩, rest, hcalls, rfl, ?_⟩
    rw [buildHeaders_auth_none options true store ha, hauth]

/-- C6 witness: with a stored token the first request carries the bearer
header; with an empty store it carries none. -/
theorem apiFetch_bearer_attachment_witness :
    (∃ req rest,
      (apiFetch "/u" ⟨⟨none, none⟩, none⟩ true true (envOf [])
        (initState ⟨some "tok", none⟩)).2.calls = .api req :: rest ∧
      req.url = "/u" ∧ req.headers.authorization = some ("Bearer " ++ "tok"))
    ∧ (∃ req rest,
      (apiFetch "/u" ⟨⟨none, none⟩, none⟩ true true (envOf [])
        (initState ⟨none, none⟩)).2.calls = .api req :: rest ∧
      req.url = "/u" ∧ req.headers.authorization = none) :=
  ⟨(apiFetch_bearer_attachment "/u" ⟨⟨none, none⟩, none⟩ true (envOf [])
      ⟨some "tok", none⟩).1 "tok" rfl (by decide),
   (apiFetch_bearer_attachment "/u" ⟨⟨none, none⟩, none⟩ true (envOf [])
      ⟨none, none⟩).2 rfl rfl⟩

/-- C7: outside the refresh path and the 204 case, the response body is
parsed as JSON exactly when the declared content type includes
`application/json`, and otherwise used as opaque text, both for the
returned value and for the error message. -/
theorem apiFetch_parses_json_iff_declared (url : String) (options : Options)
    (auth retry : Bool) (env : Env) (store : Store)
    (h204 : (env 0).status ≠ 204)
    (hpath : ¬((env 0).status = 401 ∧ auth = true ∧ retry = true)) :
    (apiFetch url options auth retry env (initState store)).1 =
      (if okStatus (env 0).status
       then .ok (if isJsonContentType (env 0).contentType
                 then (env 0).jsonBody else .str (env 0).textBody)
       else .err (errorMessage
                   (if isJsonContentType (env 0).contentType
                    then (env 0).jsonBody else .str (env 0).textBody)
                   (env 0).status)) := by
  rw [apiFetch_no401 url options auth retry env (initState store)
    (by simpa [initState] using hpath)]
  simp only [initState, List.length_nil]
  by_cases hok : okStatus (env 0).status <;>
    simp [finishResponse, parseBody, h204, hok]

/-- C7 witness: a 200 response declaring JSON is returned parsed; one
declaring plain text is returned as opaque text. -/
theorem apiFetch_parses_json_iff_declared_witness :
    (apiFetch "/u" ⟨⟨none, none⟩, none⟩ false true
      (envOf [⟨200, some "application/json; charset=utf-8",
               .obj [("message", "hi")], "raw"⟩])
      (initState ⟨none, none⟩)).1
      = (if okStatus 200
         then .ok (if isJsonContentType (some "application/json; charset=utf-8")
                   then .obj [("message", "hi")] else .str "raw")
         else .err (errorMessage
                     (if isJsonContentType (some "application/json; charset=utf-8")
                      then .obj [("message", "hi")] else .str "raw") 200)) := by
  have h := apiFetch_parses_json_iff_declared "/u" ⟨⟨none, none⟩, none⟩ false true
    (envOf [⟨200, some "application/json; charset=utf-8",
             .obj [("message", "hi")], "raw"⟩])
    ⟨none, none⟩ (by decide) (by decide)
  simpa using h

/-- C8: a 204 no-content response yields a successful empty (`null`)
result, with no thrown error. -/
theorem apiFetch_noContent_ok (url : String) (options : Options)
    (auth retry : Bool) (env : Env) (store : Store)
    (h : (env 0).status = 204) :
    (apiFetch url options auth retry env (initState store)).1 = .ok .nullv := by
  rw [apiFetch_no401 url options auth retry env (initState store)
    (by simp [initState, h])]
  simp [initState, finishResponse, h]

/-- C8 witness: a concrete 204 response returns `null`. -/
theorem apiFetch_noContent_ok_witness :
    (apiFetch "/u" ⟨⟨none, none⟩, none⟩ true true
      (envOf [⟨204, none, .nullv, ""⟩]) (initState ⟨some "t", some "r"⟩)).1
      = .ok .nullv :=
  apiFetch_noContent_ok "/u" ⟨⟨none, none⟩, none⟩ true true
    (envOf [⟨204, none, .nullv, ""⟩]) ⟨some "t", some "r"⟩ rfl

/-- C10: when the refresh path is not entered (non-401 status, or `auth`
false, or `retryOnUnauthorized` false), the token store is unchanged and
exactly one request — no refresh call — is issued. -/
theorem apiFetch_token_frame (url : String) (options : Options)
    (auth retry : Bool) (env : Env) (store : Store)
    (h : ¬((env 0).status = 401 ∧ auth = true ∧ retry = true)) :
    (apiFetch url options auth retry env (initState store)).2.store = store ∧
    (apiFetch url options auth retry env (initState store)).2.calls
      = [.api ⟨url, buildHeaders options auth store⟩] := by
  rw [apiFetch_no401 url options auth retry env (initState store)
    (by simpa [initState] using h)]
  exact ⟨rfl, by simp [initState]⟩

/-- C10 witness: a 500 response under `auth` leaves the stored tokens
untouched and issues a single call. -/
theorem apiFetch_token_frame_witness :
    (apiFetch "/u" ⟨⟨none, none⟩, none⟩ true true
      (envOf [⟨500, none, .nullv, ""⟩]) (initState ⟨some "t", some "r"⟩)).2.store
      = ⟨some "t", some "r"⟩ ∧
    (apiFetch "/u" ⟨⟨none, none⟩, none⟩ true true
      (envOf [⟨500, none, .nullv, ""⟩]) (initState ⟨some "t", some "r"⟩)).2.calls
      = [.api ⟨"/u", buildHeaders ⟨⟨none, none⟩, none⟩ true ⟨some "t", some "r"⟩⟩] :=
  apiFetch_token_frame "/u" ⟨⟨none, none⟩, none⟩ true true
    (envOf [⟨500, none, .nullv, ""⟩]) ⟨some "t", some "r"⟩ (by decide)

/-- C1: a refresh is never attempted more than once per originating
request, whatever responses arrive; and an authenticated, retry-enabled
request meeting a 401 while a refresh token is stored, whose refresh
response is ok, produces exactly the trace original request → one refresh
→ one retry of the original request (and no further retry, whatever the
retried response is), returning the retried response's result. -/
theorem apiFetch_single_refresh_and_retry :
    (∀ (url : String) (options : Options) (auth retry : Bool)
       (env : Env) (store : Store),
      refreshCalls (apiFetch url options auth retry env (initState store)).2.calls
        ≤ 1)
    ∧ (∀ (url : String) (options : Options) (env : Env) (store : Store),
      (env 0).status = 401 → optTruthy store.refresh = true →
      okStatus (env 1).status = true →
      (apiFetch url options true true env (initState store)).2.calls
        = [.api ⟨url, buildHeaders options true store⟩,
           .refresh (store.refresh.getD ""),
           .api ⟨url, buildHeaders options true
                   (storeTokens (env 1).jsonBody store)⟩]
      ∧ (apiFetch url options true true env (initState store)).1
        = finishResponse (env 2)) := by
  constructor
  · intro url options auth retry env store
    by_cases hp : (env 0).status = 401 ∧ auth = true ∧ retry = true
    · obtain ⟨h401, ha, hr⟩ := hp
      subst ha; subst hr
      by_cases hrt : optTruthy store.refresh
      · by_cases hok : okStatus (env 1).status
        · rw [apiFetch_401_refreshOk url options env (initState store)
            (by simpa [initState] using h401) hrt (by simpa [initState] using hok)]
          simp [refreshCalls, isRefreshCall]
        · rw [apiFetch_401_refreshFail url options env (initState store)
            (by simpa [initState] using h401) hrt
            (by simpa [initState] using Bool.eq_false_iff.mpr hok)]
          simp [refreshCalls, isRefreshCall]
      · rw [apiFetch_401_noToken url options env (initState store)
          (by simpa [initState] using h401) (Bool.eq_false_iff.mpr hrt)]
        simp [refreshCalls, isRefreshCall]
    · rw [apiFetch_no401 url options auth retry env (initState store)
        (by simpa [initState] using hp)]
      simp [refreshCalls, isRefreshCall]
  · intro url options env store h401 hrt hok
    rw [apiFetch_401_refreshOk url options env (initState store)
      (by simpa [initState] using h401) hrt (by simpa [initState] using hok)]
    exact ⟨by simp [initState], by simp [initState]⟩

/-- C1 witness: a concrete 401 / ok-refresh / 200 sequence yields exactly
the three-call trace and the retried response's result. -/
theorem apiFetch_single_refresh_and_retry_witness :
    (apiFetch "/u" ⟨⟨none, none⟩, none⟩ true true
      (envOf [⟨401, none, .nullv, ""⟩,
              ⟨200, some "application/json", .obj [("access_token", "n")], ""⟩,
              ⟨200, some "application/json", .obj [("message", "hi")], ""⟩])
      (initState ⟨some "a", some "r"⟩)).2.calls
      = [.api ⟨"/u", buildHeaders ⟨⟨none, none⟩, none⟩ true ⟨some "a", some "r"⟩⟩,
         .refresh ((some "r").getD ""),
         .api ⟨"/u", buildHeaders ⟨⟨none, none⟩, none⟩ true
                 (storeTokens (envOf [⟨401, none, .nullv, ""⟩,
                    ⟨200, some "application/json", .obj [("access_token", "n")], ""⟩,
                    ⟨200, some "application/json", .obj [("message", "hi")], ""⟩] 1).jsonBody
                  ⟨some "a", some "r"⟩)⟩]
    ∧ (apiFetch "/u" ⟨⟨none, none⟩, none⟩ true true
      (envOf [⟨401, none, .nullv, ""⟩,
              ⟨200, some "application/json", .obj [("access_token", "n")], ""⟩,
              ⟨200, some "application/json", .obj [("message", "hi")], ""⟩])
      (initState ⟨some "a", some "r"⟩)).1
      = finishResponse (envOf [⟨401, none, .nullv, ""⟩,
          ⟨200, some "application/json", .obj [("access_token", "n")], ""⟩,
          ⟨200, some "application/json", .obj [("message", "hi")], ""⟩] 2) :=
  apiFetch_single_refresh_and_retry.2 "/u" ⟨⟨none, none⟩, none⟩
    (envOf [⟨401, none, .nullv, ""⟩,
            ⟨200, some "application/json", .obj [("access_token", "n")], ""⟩,
            ⟨200, some "application/json", .obj [("message", "hi")], ""⟩])
    ⟨some "a", some "r"⟩ rfl (by decide) (by decide)

/-- C2 counterexample: a 401 under `auth` with no stored refresh token
does not clear the stored access token — the store still holds it after
the call, contradicting the claim that both tokens are cleared. -/
theorem apiFetch_clear_tokens_counterexample :
    (apiFetch "/u" ⟨⟨none, none⟩, none⟩ true true
      (envOf [⟨401, none, .nullv, ""⟩]) (initState ⟨some "a", none⟩)).2.store.access
      = some "a"
    ∧ some "a" ≠ (none : Option String) := by decide

/-- C2 amended: on a 401 under `auth` and `retryOnUnauthorized`, if a
(truthy) refresh token is stored and the refresh response is non-ok, both
stored tokens are cleared; if no refresh token is stored, token storage is
left unchanged; in either case the propagated error is the one derived
from the original 401 response — not a refresh-specific one — and the
original request is issued exactly once (no retry). -/
theorem apiFetch_refresh_failure_behavior (url : String) (options : Options)
    (env : Env) (store : Store)
    (h401 : (env 0).status = 401)
    (hfail : optTruthy store.refresh = true → okStatus (env 1).status = false) :
    (apiFetch url options true true env (initState store)).1
      = .err (errorMessage (parseBody (env 0)) 401)
    ∧ (apiFetch url options true true env (initState store)).2.store
      = (if optTruthy store.refresh then ⟨none, none⟩ else store)
    ∧ apiCalls (apiFetch url options true true env (initState store)).2.calls
      = 1 := by
  have hfin : finishResponse (env 0) = .err (errorMessage (parseBody (env 0)) 401) := by
    simp [finishResponse, h401, okStatus]
  by_cases hrt : optTruthy store.refresh
  · rw [apiFetch_401_refreshFail url options env (initState store)
      (by simpa [initState] using h401) hrt
      (by simpa [initState] using hfail hrt)]
    refine ⟨by simpa [initState] using hfin, by simp [hrt], ?_⟩
    simp [apiCalls, isRefreshCall]
  · rw [apiFetch_401_noToken url options env (initState store)
      (by simpa [initState] using h401) (Bool.eq_false_iff.mpr hrt)]
    refine ⟨by simpa [initState] using hfin, by simp [hrt], ?_⟩
    simp [apiCalls, isRefreshCall]

/-- C2 amended witness: a 401 followed by a failing (500) refresh clears
both tokens and propagates the original 401-derived error after a single
original request. -/
theorem apiFetch_refresh_failure_behavior_witness :
    (apiFetch "/u" ⟨⟨none, none⟩, none⟩ true true
      (envOf [⟨401, none, .nullv, ""⟩, ⟨500, none, .nullv, ""⟩])
      (initState ⟨some "a", some "r"⟩)).1
      = .err (errorMessage
          (parseBody (envOf [⟨401, none, .nullv, ""⟩, ⟨500, none, .nullv, ""⟩] 0)) 401)
    ∧ (apiFetch "/u" ⟨⟨none, none⟩, none⟩ true true
      (envOf [⟨401, none, .nullv, ""⟩, ⟨500, none, .nullv, ""⟩])
      (initState ⟨some "a", some "r"⟩)).2.store
      = (if optTruthy (some "r") then ⟨none, none⟩ else ⟨some "a", some "r"⟩)
    ∧ apiCalls (apiFetch "/u" ⟨⟨none, none⟩, none⟩ true true
      (envOf [⟨401, none, .nullv, ""⟩, ⟨500, none, .nullv, ""⟩])
      (initState ⟨some "a", some "r"⟩)).2.calls = 1 :=
  apiFetch_refresh_failure_behavior "/u" ⟨⟨none, none⟩, none⟩
    (envOf [⟨401, none, .nullv, ""⟩, ⟨500, none, .nullv, ""⟩])
    ⟨some "a", some "r"⟩ rfl (by decide)

/-- C3 counterexample: a 400 JSON body with an empty `detail` field and a
non-empty `message` field makes the code throw the `message` text, while
the claim's rule ("`detail` if present") would pick the empty string. -/
theorem apiFetch_error_message_counterexample :
    (apiFetch "/u" ⟨⟨none, none⟩, none⟩ false false
      (envOf [⟨400, some "application/json",
               .obj [("detail", ""), ("message", "m")], ""⟩])
      (initState ⟨none, none⟩)).1 = .err "m"
    ∧ claimedErrorMessage (.obj [("detail", ""), ("message", "m")]) 400 = ""
    ∧ ("m" : String) ≠ "" := by decide

/-- C3 amended: for a non-success response outside the retried-401 path,
the thrown message follows the ordered fallback with JavaScript
truthiness: the `detail` field if present and non-empty, else the
`message` field if present and non-empty, else the raw body text if it
trims to a non-empty string, else the generic message naming the status
code — as computed by `errorMessage`. -/
theorem apiFetch_error_fallback_chain (url : String) (options : Options)
    (auth retry : Bool) (env : Env) (store : Store)
    (hok : okStatus (env 0).status = false)
    (hpath : ¬((env 0).status = 401 ∧ auth = true ∧ retry = true)) :
    (apiFetch url options auth retry env (initState store)).1
      = .err (errorMessage (parseBody (env 0)) (env 0).status) := by
  have h204 : (env 0).status ≠ 204 := by
    intro h; rw [h] at hok; exact absurd hok (by decide)
  rw [apiFetch_no401 url options auth retry env (initState store)
    (by simpa [initState] using hpath)]
  simp [initState, finishResponse, h204, hok]

/-- C3 amended witness: a 404 plain-text response throws its (trimmed
non-empty) body text. -/
theorem apiFetch_error_fallback_chain_witness :
    (apiFetch "/u" ⟨⟨none, none⟩, none⟩ false true
      (envOf [⟨404, some "text/plain", .nullv, "not found"⟩])
      (initState ⟨none, none⟩)).1
      = .err (errorMessage
          (parseBody (envOf [⟨404, some "text/plain", .nullv, "not found"⟩] 0))
          ((envOf [⟨404, some "text/plain", .nullv, "not found"⟩] 0).status))
    ∧ errorMessage
        (parseBody (envOf [⟨404, some "text/plain", .nullv, "not found"⟩] 0))
        ((envOf [⟨404, some "text/plain", .nullv, "not found"⟩] 0).status)
      = "not found" :=
  ⟨apiFetch_error_fallback_chain "/u" ⟨⟨none, none⟩, none⟩ false true
      (envOf [⟨404, some "text/plain", .nullv, "not found"⟩])
      ⟨none, none⟩ (by decide) (by decide),
   by decide⟩

/-- C9: `storeTokens` updates only the fields present in its payload — a
payload carrying a (truthy) `access_token` but no `refresh_token`
overwrites the access slot and leaves the refresh slot unchanged;
`storeTokens` never removes a stored token; and a successful refresh whose
response carries only a new access token preserves the stored refresh
token. -/
theorem storeTokens_partial_update :
    (∀ (st : Store) (fields : List (String × String)) (a : String),
      (JVal.obj fields).truthyField "access_token" = some a →
      fields.lookup "refresh_token" = none →
      storeTokens (.obj fields) st = ⟨some a, st.refresh⟩)
    ∧ (∀ (p : JVal) (st : Store),
      (st.access.isSome → ((storeTokens p st).access).isSome) ∧
      (st.refresh.isSome → ((storeTokens p st).refresh).isSome))
    ∧ (∀ (env : Env) (store : Store) (rt a : String)
        (fields : List (String × String)),
      store.refresh = some rt → rt ≠ "" →
      okStatus (env 0).status = true →
      (env 0).jsonBody = .obj fields →
      (JVal.obj fields).truthyField "access_token" = some a →
      fields.lookup "refresh_token" = none →
      (refreshAccessToken env (initState store)).2.store = ⟨some a, some rt⟩) := by
  refine ⟨storeTokens_access_only, ?_, ?_⟩
  · intro p st
    unfold storeTokens
    by_cases hp : p.truthy
    · rcases h1 : p.truthyField "access_token" with _ | a <;>
        rcases h2 : p.truthyField "refresh_token" with _ | r <;>
        simp [hp, h1, h2]
    · simp [hp]
  · intro env store rt a fields hrt hne hok hjson ha hr
    have htr : optTruthy (initState store).store.refresh = true := by
      simp [initState, optTruthy, hrt, hne]
    rw [refresh_ok env (initState store) htr (by simpa [initState] using hok)]
    simp only [initState, List.length_nil]
    rw [hjson, storeTokens_access_only store fields a ha hr, hrt]

/-- C9 witness: a payload with only an access token updates the access
slot and keeps the refresh slot; a concrete successful refresh whose
response carries only an access token preserves the refresh token. -/
theorem storeTokens_partial_update_witness :
    storeTokens (.obj [("access_token", "n")]) ⟨some "o", some "r"⟩
      = ⟨some "n", some "r"⟩
    ∧ (refreshAccessToken
        (envOf [⟨200, some "application/json", .obj [("access_token", "n")], ""⟩])
        (initState ⟨some "o", some "r"⟩)).2.store = ⟨some "n", some "r"⟩ :=
  ⟨storeTokens_partial_update.1 ⟨some "o", some "r"⟩ [("access_token", "n")] "n"
      (by decide) rfl,
   storeTokens_partial_update.2.2
      (envOf [⟨200, some "application/json", .obj [("access_token", "n")], ""⟩])
      ⟨some "o", some "r"⟩ "r" "n" [("access_token", "n")]
      rfl (by decide) (by decide) rfl (by decide) rfl⟩

/-- C4: for a valid submission (matching response count, all responses on
the scale) whose total falls in some band, `score` returns the sum of the
responses as total, question count times `scale.max` as maximum score, and
the exact rational `total / question count` as average — no integer
truncation. -/
theorem score_valid_submission (d : AssessmentDefinition) (rs : List Int)
    (b : Band)
    (hlen : rs.length = d.questions.length)
    (hrange : ∀ r ∈ rs, d.scale.min ≤ r ∧ r ≤ d.scale.max)
    (hband : selectBand d.bands rs.sum = some b) :
    score d rs = .ok ⟨rs.sum, (d.questions.length : Int) * d.scale.max,
      (rs.sum : ℚ) / (d.questions.length : ℚ), b.interpretation, b.guidance⟩ := by
  have hany : (rs.any (fun r => r < d.scale.min || d.scale.max < r)) = false := by
    simp only [List.any_eq_false, Bool.or_eq_true, decide_eq_true_eq, not_or]
    intro r hr
    have h := hrange r hr
    constructor <;> omega
  simp [score, hlen, hany, hband]

/-- C4 witness: two questions on the 1–5 scale with responses `[5, 5]`
score total 10, maximum 10 and average exactly 5. -/
theorem score_valid_submission_witness :
    score ⟨["q1", "q2"], ⟨1, 5⟩, [⟨0, 10, "High", "Go"⟩]⟩ [5, 5]
      = .ok ⟨10, 10, 5, "High", "Go"⟩ := by
  have h := score_valid_submission ⟨["q1", "q2"], ⟨1, 5⟩, [⟨0, 10, "High", "Go"⟩]⟩
    [5, 5] ⟨0, 10, "High", "Go"⟩ rfl (by decide) (by decide)
  rw [h]
  norm_num

end PAT
